import Mathlib

/-!
# Verification of the cargo-remote orchestration pipeline

A shallow embedding of `src/main.rs` of the `cargo-remote` repository.
The program resolves a remote build server from the command line and two
layered TOML configuration files, derives a deterministic remote build
directory from the local project path, renders a remote shell command, and
drives four external stages (rsync upload, ssh build, rsync artifact
copy-back, rsync lockfile copy-back), terminating with stage-specific exit
codes.

The embedding models:
* the TOML values the program inspects (`TVal`, tables as association
  lists; top-level parsed TOML is always a table);
* `config_from_file` (lines 82-113): read/parse failures degrade to `none`;
* the resolution of the `remote` key (lines 147-157), including the fact
  that `c["remote"]` uses the `toml` crate's panicking `Index`
  implementation (`self.get(index).expect("index not found")`), so a
  present, well-formed table that lacks the key panics;
* the build-path rendering (lines 160-162); the `DefaultHasher` itself is
  `std` library code (SipHash-1-3 with fixed keys, deterministic across
  runs), so the derivation is parametrised by that fixed hash function;
* the rsync argument list of the upload stage (lines 166-183);
* the remote command string (lines 195-202);
* the stage sequencing and exit codes of `main` (lines 115-273) as a
  function of the outside world, where each external process either fails
  to spawn (`none`) or runs and finishes with an exit status
  (`some status`, with `status : Option Int`; `none` inside means the
  status code cannot be determined, e.g. the process was killed by a
  signal).  Note that `.output().unwrap_or_else(...)` only catches spawn
  errors: a spawned process that exits non-zero is NOT an error at this
  point; for the three rsync stages the captured `Output` is discarded.
-/

namespace CargoRemote

/-- A TOML value as far as this program inspects it: `remote` must be a
string to be used (`as_str`), anything else is ignored. -/
inductive TVal where
  | str (s : String)
  | other
deriving DecidableEq, Repr

/-- A parsed top-level TOML document is a table: keys are unique, so an
association list is a faithful model. -/
abbrev Table := List (String × TVal)

/-- Lookup in a TOML table (`Value::get`). -/
def tableGet : Table → String → Option TVal
  | [], _ => none
  | (k, v) :: rest, key => if k = key then some v else tableGet rest key

/-- Result of reading and parsing one candidate configuration file, before
`config_from_file` collapses failures: `none` when the file cannot be
read (absent or unreadable), `some (.error ())` when it reads but does not
parse, `some (.ok t)` when it parses to table `t`. -/
abbrev RawConfig := Option (Except Unit Table)

/-- Parsing helper `config_from_file` (main.rs lines 82-113): logs and
returns `None` on read errors and on parse errors, `Some(value)`
otherwise. -/
def config_from_file : RawConfig → Option Table
  | none => none
  | some (.error _) => none
  | some (.ok t) => some t

/-- The closure at main.rs line 151:
`config.and_then(|c| c["remote"].as_str().map(String::from))` for a config
that is present.  `c["remote"]` goes through the `toml` crate's panicking
`ops::Index` (`self.get(index).expect("index not found")`), so a table
without the key panics (`.error ()`); a non-string value yields `none`
via `as_str`; a string value is taken. -/
def remoteFromConfig (c : Table) : Except Unit (Option String) :=
  match tableGet c "remote" with
  | none => .error ()
  | some (.str s) => .ok (some s)
  | some .other => .ok none

/-- The iterator chain at main.rs lines 149-153:
`configs.into_iter().flat_map(...).next()` is lazy, so configs after the
first one that yields a value (or panics) are never inspected. -/
def firstRemote : List (Option Table) → Except Unit (Option String)
  | [] => .ok none
  | none :: rest => firstRemote rest
  | some c :: rest =>
    match remoteFromConfig c with
    | .error e => .error e
    | .ok (some s) => .ok (some s)
    | .ok none => firstRemote rest

/-- Build-server resolution (main.rs lines 147-157): the `--remote` flag
short-circuits (`Option::or_else` does not evaluate the closure when the
flag is `Some`); otherwise the configs are scanned in order, project-level
first.  `.ok none` is the `exit(-3)` "no remote build server" case,
`.error ()` is a panic of the resolution itself. -/
def resolve_build_server (flag : Option String) (cfgs : List (Option Table)) :
    Except Unit (Option String) :=
  match flag with
  | some r => .ok (some r)
  | none => firstRemote cfgs

/-- Decimal rendering of `hasher.finish()` inside
`format!("~/remote-builds/{}/", hasher.finish())` (main.rs line 162):
`{}` on a `u64` renders unpadded decimal digits. -/
def build_path (h : Nat) : String :=
  "~/remote-builds/" ++ Nat.repr h ++ "/"

/-- The build-path derivation (main.rs lines 160-162): hash the project
directory with `DefaultHasher` and embed the 64-bit result in the path
template.  `DefaultHasher::new()` uses fixed keys, so the hash is one
fixed deterministic function of the path; the derivation is parametrised
by it because the hash implementation lives in `std`, not in this
repository. -/
def derive_build_path (defaultHash : String → Nat) (projectDir : String) : String :=
  build_path (defaultHash projectDir)

/-- Rust `Itertools::join` with a single-space separator. -/
def joinSpace (l : List String) : String :=
  String.intercalate " " l

/-- The remote command string (main.rs lines 195-202):
`format!("source {}; rustup default {}; cd {}; {} cargo {}", ...)` with the
build-env variables and the pass-through arguments each joined by single
spaces.  No quoting or escaping is applied anywhere. -/
def build_command (env rustup_default bpath : String)
    (build_env cmds : List String) : String :=
  "source " ++ env ++ "; rustup default " ++ rustup_default ++ "; cd " ++
    bpath ++ "; " ++ joinSpace build_env ++ " cargo " ++ joinSpace cmds

/-- The argument list of the upload rsync invocation (main.rs lines
166-183), in order: the fixed flags, the unconditional exclusion of
`target`, the exclusion of dot-prefixed entries exactly when `hidden` is
false, the remote-side `mkdir -p remote-builds && rsync` command, the
source directory and the `server:path` destination. -/
def rsyncToArgs (hidden : Bool) (project_dir build_server bpath : String) :
    List String :=
  ["-a", "--delete", "--compress", "--info=progress2", "--exclude", "target"]
    ++ (if hidden then [] else ["--exclude", ".*"])
    ++ ["--rsync-path", "mkdir -p remote-builds && rsync",
        project_dir ++ "/", build_server ++ ":" ++ bpath]

/-- The four external stages of the pipeline, in the order `main` attempts
them. -/
inductive Stage where
  | transfer
  | remoteExec
  | copyArtifacts
  | copyLock
deriving DecidableEq, Repr

/-- How a run of `main` terminates: `exit(c)` (falling off the end of
`main` is `code 0`), or a panic (the `toml` index panic, whose process
status is not one of the program's own exit codes). -/
inductive Exit where
  | code (c : Int)
  | panicked
deriving DecidableEq, Repr

/-- The resolved inputs of one run that the pipeline inspects: the
`--remote` flag, the two candidate configuration files (project-level
first, user-level second) after `config_from_file`, `copy_back`
(`-c [selector]`, an optional flag with optional value) and
`no_copy_lock`. -/
structure Opts where
  remote : Option String
  projectConfig : Option Table
  userConfig : Option Table
  copy_back : Option (Option String)
  no_copy_lock : Bool

/-- The behaviour of the four external processes in one run.  For each:
`none` means the process could not be started (`Command::output()`
returned `Err`), `some st` means it ran to completion with exit status
`st`, where `st : Option Int` is `ExitStatus::code()` (`none` when the
status code cannot be determined, e.g. death by signal; a determined unix
exit code lies in `0..=255`). -/
structure World where
  rsyncTo : Option (Option Int)
  ssh : Option (Option Int)
  rsyncBack : Option (Option Int)
  rsyncLock : Option (Option Int)

/-- A determined unix exit status code lies in `0..=255`. -/
def statusValid : Option (Option Int) → Bool
  | some (some c) => decide (0 ≤ c) && decide (c ≤ 255)
  | _ => true

/-- All four external processes report unix-representable statuses. -/
def World.valid (w : World) : Bool :=
  statusValid w.rsyncTo && statusValid w.ssh &&
    statusValid w.rsyncBack && statusValid w.rsyncLock

/-- Rust `ExitStatus::success()` is "exited with code 0". -/
def statusSuccess (st : Option Int) : Bool :=
  st = some 0

/-- The final status check (main.rs lines 270-272):
`if !output.status.success() { exit(output.status.code().unwrap_or(1)) }`,
otherwise `main` returns and the process exits 0. -/
def finalExit (st : Option Int) : Exit :=
  if statusSuccess st then .code 0 else .code (st.getD 1)

/-- The `Cargo.lock` copy-back stage (main.rs lines 248-268) followed by
the final status check: skipped entirely when `no_copy_lock`; `exit(-7)`
when the rsync process cannot be started; a started rsync's own exit
status is discarded. -/
def copyLockStage (o : Opts) (w : World) (st : Option Int) (t : List Stage) :
    List Stage × Exit :=
  if o.no_copy_lock then
    (t, finalExit st)
  else
    match w.rsyncLock with
    | none => (t ++ [.copyLock], .code (-7))
    | some _ => (t ++ [.copyLock], finalExit st)

/-- The artifact copy-back stage (main.rs lines 218-246): run only when
`copy_back` is present; `exit(-6)` when the rsync process cannot be
started; a started rsync's own exit status is discarded. -/
def copyArtifactsStage (o : Opts) (w : World) (st : Option Int)
    (t : List Stage) : List Stage × Exit :=
  match o.copy_back with
  | none => copyLockStage o w st t
  | some _ =>
    match w.rsyncBack with
    | none => (t ++ [.copyArtifacts], .code (-6))
    | some _ => copyLockStage o w st (t ++ [.copyArtifacts])

/-- The whole of `main` (main.rs lines 115-273) as a function of the resolved options
and the outside world, returning the sequence of stages whose external
process was invoked and the way the process terminates.
Order of events: resolve the build server (`exit(-3)` when no source
defines it, panic when a present config table lacks the key); attempt the
upload rsync (`exit(-4)` only when it cannot be started — a started
upload's exit status is discarded, main.rs lines 184-191); attempt ssh
(`exit(-5)` only when it cannot be started); capture the ssh status; run
the optional copy-back stages; finally propagate the ssh status. -/
def runMain (o : Opts) (w : World) : List Stage × Exit :=
  match resolve_build_server o.remote [o.projectConfig, o.userConfig] with
  | .error _ => ([], .panicked)
  | .ok none => ([], .code (-3))
  | .ok (some _) =>
    match w.rsyncTo with
    | none => ([.transfer], .code (-4))
    | some _ =>
      match w.ssh with
      | none => ([.transfer, .remoteExec], .code (-5))
      | some st => copyArtifactsStage o w st [.transfer, .remoteExec]

/-! ## Helper lemmas -/

/-- One fuel step of `Nat.toDigitsCore` always prepends at least one
character. -/
theorem toDigitsCore_length_ge (b : Nat) :
    ∀ (f n : Nat) (l : List Char),
      l.length + 1 ≤ (Nat.toDigitsCore b (f + 1) n l).length := by
  intro f
  induction f with
  | zero =>
    intro n l
    simp only [Nat.toDigitsCore]
    split <;> simp
  | succ f ih =>
    intro n l
    rw [Nat.toDigitsCore]
    split
    · simp
    · calc l.length + 1 ≤ (Nat.digitChar (n % b) :: l).length := by simp
        _ ≤ _ := Nat.le_of_succ_le (ih _ _)

/-- Decimal rendering of a natural number is never empty. -/
theorem repr_length_pos (n : Nat) : 1 ≤ (Nat.repr n).length := by
  have h : (Nat.repr n).length = (Nat.toDigitsCore 10 (n + 1) n []).length := rfl
  rw [h]
  simpa using toDigitsCore_length_ge 10 n n []

/-- A string ending in a slash is never the literal `.*`. -/
theorem append_slash_ne (s : String) : s ++ "/" ≠ ".*" := by
  intro h
  have h2 : s.data ++ ['/'] = ['.', '*'] := by
    have h3 := congrArg String.data h
    rwa [String.data_append] at h3
  have h4 : some '/' = some '*' := by
    calc some '/' = (s.data ++ ['/']).getLast? := (List.getLast?_concat _).symm
      _ = (['.', '*'] : List Char).getLast? := by rw [h2]
      _ = some '*' := rfl
  simp at h4

/-- A string containing a colon is never the literal `.*`. -/
theorem host_colon_ne (bs bp : String) : bs ++ ":" ++ bp ≠ ".*" := by
  intro h
  have hm : (':' : Char) ∈ (bs ++ ":" ++ bp).data := by
    rw [String.data_append, String.data_append]
    simp [show (":" : String).data = [':'] from rfl]
  rw [h] at hm
  simp at hm

/-- The lockfile phase either aborts with `-7` or ends with the final
status check. -/
theorem copyLockStage_exit (o : Opts) (w : World) (st : Option Int)
    (t : List Stage) :
    (copyLockStage o w st t).2 = Exit.code (-7) ∨
      (copyLockStage o w st t).2 = finalExit st := by
  unfold copyLockStage
  split
  · exact Or.inr rfl
  · split
    · exact Or.inl rfl
    · exact Or.inr rfl

/-- The lockfile phase only appends to the stage trace. -/
theorem copyLockStage_trace (o : Opts) (w : World) (st : Option Int)
    (t : List Stage) :
    ∃ t2, (copyLockStage o w st t).1 = t ++ t2 := by
  unfold copyLockStage
  split
  · exact ⟨[], by simp⟩
  · split
    · exact ⟨[Stage.copyLock], rfl⟩
    · exact ⟨[Stage.copyLock], rfl⟩

/-- The copy-back phase aborts with `-6` or `-7` or ends with the final
status check. -/
theorem copyArtifactsStage_exit (o : Opts) (w : World) (st : Option Int)
    (t : List Stage) :
    (copyArtifactsStage o w st t).2 = Exit.code (-6) ∨
      (copyArtifactsStage o w st t).2 = Exit.code (-7) ∨
      (copyArtifactsStage o w st t).2 = finalExit st := by
  unfold copyArtifactsStage
  split
  · exact Or.inr (copyLockStage_exit o w st t)
  · split
    · exact Or.inl rfl
    · exact Or.inr (copyLockStage_exit o w st _)

/-- The copy-back phase only appends to the stage trace. -/
theorem copyArtifactsStage_trace (o : Opts) (w : World) (st : Option Int)
    (t : List Stage) :
    ∃ t2, (copyArtifactsStage o w st t).1 = t ++ t2 := by
  unfold copyArtifactsStage
  split
  · exact copyLockStage_trace o w st t
  · split
    · exact ⟨[Stage.copyArtifacts], rfl⟩
    · obtain ⟨t2, h⟩ := copyLockStage_trace o w st (t ++ [Stage.copyArtifacts])
      exact ⟨[Stage.copyArtifacts] ++ t2, by rw [h, List.append_assoc]⟩

/-- The final status check exits with a non-negative code when the remote
status is a unix-representable one. -/
theorem finalExit_nonneg (st : Option Int) (h : statusValid (some st) = true) :
    ∃ c, finalExit st = Exit.code c ∧ 0 ≤ c := by
  cases st with
  | none => exact ⟨1, rfl, by norm_num⟩
  | some c =>
    simp only [statusValid, Bool.and_eq_true, decide_eq_true_eq] at h
    by_cases hc : c = 0
    · exact ⟨0, by simp [finalExit, statusSuccess, hc], le_refl 0⟩
    · refine ⟨c, ?_, h.1⟩
      simp [finalExit, statusSuccess, hc]

/-- Unfolding of the final status check. -/
theorem finalExit_eq (u : Option Int) :
    finalExit u = if u = some 0 then Exit.code 0 else Exit.code (u.getD 1) := by
  by_cases h : u = some 0 <;> simp [finalExit, statusSuccess, h]

/-! ## Claims -/

/-- C4: with an explicit `--remote` flag the flag value wins regardless of
the configuration files, and with project-level `remote=A` and user-level
`remote=B` the resolved server is `A`; however, the "first source that
defines the key wins" part of the resolution is broken by the failing
input: a present project-level table without the `remote` key makes the
resolution panic through the toml crate's `Index` instead of deferring to
the user-level source that defines it. -/
theorem c4_resolution_order :
    (∀ (r : String) (cfgs : List (Option Table)),
      resolve_build_server (some r) cfgs = .ok (some r)) ∧
    resolve_build_server none
        [some [("remote", TVal.str "A")], some [("remote", TVal.str "B")]] =
      .ok (some "A") ∧
    resolve_build_server none
        [some [("foo", TVal.other)], some [("remote", TVal.str "B")]] =
      .error () := by
  exact ⟨fun r cfgs => rfl, rfl, rfl⟩

/-- C5: with no flag and no configuration file at all, `main` terminates
with the distinct `-3` "no remote server" code without invoking any
external stage; but on the failing input (a present, well-formed
project-level config that does not define `remote`) the run instead
terminates by a panic — still before any Transfer or RemoteExec
invocation. -/
theorem c5_no_remote_server :
    (∀ w : World,
      runMain ⟨none, none, none, none, true⟩ w = ([], Exit.code (-3))) ∧
    (∀ w : World,
      runMain ⟨none, some [("foo", TVal.other)], none, none, true⟩ w =
        ([], Exit.panicked)) :=
  ⟨fun _ => rfl, fun _ => rfl⟩

/-- C6: an unreadable or malformed configuration source degrades to absent
(first conjunct, `config_from_file`), an absent source and a source whose
`remote` value is not a string both fall through to the next source
(second and third conjuncts); but a present, well-formed source that does
not define the looked-up key panics through the toml crate's `Index`
(last conjunct) instead of being treated as absent. -/
theorem c6_config_source_degradation :
    (∀ t : Table, config_from_file none = none ∧
      config_from_file (some (.error ())) = none ∧
      config_from_file (some (.ok t)) = some t) ∧
    resolve_build_server none [none, some [("remote", TVal.str "B")]] =
      .ok (some "B") ∧
    resolve_build_server none
        [some [("remote", TVal.other)], some [("remote", TVal.str "B")]] =
      .ok (some "B") ∧
    remoteFromConfig [("foo", TVal.other)] = .error () := by
  exact ⟨fun t => ⟨rfl, rfl, rfl⟩, rfl, rfl, rfl⟩

/-- C7: the rendered remote command for `envProfile=/etc/profile`,
`toolchain=stable`, `buildPath=~/remote-builds/123/`,
`buildEnv=["RUST_BACKTRACE=1"]`, `passThroughArgs=["build","--release"]`
is exactly the single string below: profile sourcing, then toolchain
selection, then directory change, then the space-joined environment
variables prefixing the space-joined cargo invocation, with no quoting or
escaping. -/
theorem c7_remote_command :
    build_command "/etc/profile" "stable" "~/remote-builds/123/"
        ["RUST_BACKTRACE=1"] ["build", "--release"] =
      "source /etc/profile; rustup default stable; cd ~/remote-builds/123/; RUST_BACKTRACE=1 cargo build --release" := by
  rfl

/-- C1 counterexample: a run in which the transfer process starts and
exits with the non-zero status 23 does not abort with the transfer code:
the RemoteExecute stage still runs and the process exits 0, because
`main` discards the `Output` of the upload rsync (main.rs lines 184-191)
and only `Err` of `Command::output()` (a spawn failure) triggers
`exit(-4)`. -/
theorem c1_counterexample :
    runMain ⟨some "host", none, none, none, true⟩
        ⟨some (some 23), some (some 0), none, none⟩ =
      ([Stage.transfer, Stage.remoteExec], Exit.code 0) ∧
    Stage.remoteExec ∈
      (runMain ⟨some "host", none, none, none, true⟩
        ⟨some (some 23), some (some 0), none, none⟩).1 ∧
    (runMain ⟨some "host", none, none, none, true⟩
        ⟨some (some 23), some (some 0), none, none⟩).2 ≠ Exit.code (-4) := by
  decide

/-- C1 (amended): the Transfer stage aborts the whole run with its own
distinct fatal code `-4`, with no later stage executed, exactly when the
transfer process cannot be started; when the process starts, its exit
status is ignored whatever it is, the pipeline continues into
RemoteExecute, and the run never terminates with `-4`. -/
theorem c1_transfer_abort_amended (o : Opts) (w : World) (s : String)
    (hres : resolve_build_server o.remote [o.projectConfig, o.userConfig] =
      .ok (some s))
    (hvalid : w.valid = true) :
    (w.rsyncTo = none → runMain o w = ([Stage.transfer], Exit.code (-4))) ∧
    ∀ st, w.rsyncTo = some st →
      Stage.remoteExec ∈ (runMain o w).1 ∧ (runMain o w).2 ≠ Exit.code (-4) := by
  have hssh : statusValid w.ssh = true := by
    simp only [World.valid, Bool.and_eq_true] at hvalid
    exact hvalid.1.1.2
  constructor
  · intro h0
    simp [runMain, hres, h0]
  · intro st hst
    cases hs2 : w.ssh with
    | none => simp [runMain, hres, hst, hs2]
    | some st2 =>
      have hval2 : statusValid (some st2) = true := by rw [← hs2]; exact hssh
      obtain ⟨t2, ht2⟩ :=
        copyArtifactsStage_trace o w st2 [Stage.transfer, Stage.remoteExec]
      constructor
      · simp [runMain, hres, hst, hs2, ht2]
      · simp only [runMain, hres, hst, hs2]
        rcases copyArtifactsStage_exit o w st2
            [Stage.transfer, Stage.remoteExec] with h | h | h
        · rw [h]; decide
        · rw [h]; decide
        · obtain ⟨c, hc, hc0⟩ := finalExit_nonneg st2 hval2
          rw [h, hc]
          simp only [ne_eq, Exit.code.injEq]
          omega

/-- C1 witness: a concrete run whose transfer process cannot be started
terminates with `-4` and no later stage. -/
theorem c1_transfer_abort_amended_witness :
    runMain ⟨some "h", none, none, none, true⟩ ⟨none, none, none, none⟩ =
      ([Stage.transfer], Exit.code (-4)) :=
  (c1_transfer_abort_amended ⟨some "h", none, none, none, true⟩
    ⟨none, none, none, none⟩ "h" rfl (by decide)).1 rfl

/-- C2: whenever the build server resolves, the upload rsync starts and
the ssh process starts and reports status `st`, and every requested
copy-back process can be started, the pipeline runs CopyArtifacts exactly
when `copy_back` is present and CopyLock exactly when the lock copy is
not suppressed, in that order after RemoteExecute, and only then exits
with the remote status: `0` when the remote build exited zero, the remote
build's own code when it exited non-zero, and `1` when the code cannot be
determined. -/
theorem c2_remote_status_propagated (o : Opts) (w : World) (r st : Option Int)
    (hres : ∃ s, resolve_build_server o.remote [o.projectConfig, o.userConfig] =
      .ok (some s))
    (hTo : w.rsyncTo = some r) (hSsh : w.ssh = some st)
    (hBack : o.copy_back.isSome → w.rsyncBack.isSome)
    (hLock : o.no_copy_lock = false → w.rsyncLock.isSome) :
    runMain o w =
      ([Stage.transfer, Stage.remoteExec]
        ++ (if o.copy_back.isSome then [Stage.copyArtifacts] else [])
        ++ (if o.no_copy_lock then [] else [Stage.copyLock]),
       if st = some 0 then Exit.code 0 else Exit.code (st.getD 1)) := by
  obtain ⟨s, hs⟩ := hres
  rcases hcb : o.copy_back with _ | sel
  · rcases hnl : o.no_copy_lock with _ | _
    · obtain ⟨y, hy⟩ := Option.isSome_iff_exists.mp (hLock hnl)
      simp [runMain, hs, hTo, hSsh, copyArtifactsStage, copyLockStage,
        hcb, hnl, hy, finalExit_eq]
    · simp [runMain, hs, hTo, hSsh, copyArtifactsStage, copyLockStage,
        hcb, hnl, finalExit_eq]
  · obtain ⟨x, hx⟩ := Option.isSome_iff_exists.mp (hBack (by simp [hcb]))
    rcases hnl : o.no_copy_lock with _ | _
    · obtain ⟨y, hy⟩ := Option.isSome_iff_exists.mp (hLock hnl)
      simp [runMain, hs, hTo, hSsh, copyArtifactsStage, copyLockStage,
        hcb, hnl, hx, hy, finalExit_eq]
    · simp [runMain, hs, hTo, hSsh, copyArtifactsStage, copyLockStage,
        hcb, hnl, hx, finalExit_eq]

/-- C2 witness: a concrete run with a failed remote build (status 101),
copy-back requested and the lock copy enabled runs all four stages and
exits 101. -/
theorem c2_remote_status_propagated_witness :
    runMain ⟨some "h", none, none, some none, false⟩
        ⟨some (some 0), some (some 101), some (some 0), some (some 0)⟩ =
      ([Stage.transfer, Stage.remoteExec, Stage.copyArtifacts,
        Stage.copyLock], Exit.code 101) := by
  have h := c2_remote_status_propagated
    ⟨some "h", none, none, some none, false⟩
    ⟨some (some 0), some (some 101), some (some 0), some (some 0)⟩
    (some 0) (some 101) ⟨"h", rfl⟩ rfl rfl (fun _ => rfl) (fun _ => rfl)
  simpa using h

/-- C3 counterexample: a run whose artifact copy-back rsync starts and
exits with the non-zero status 23 does not terminate with the stage's
code `-6`: the captured `Output` is discarded (main.rs lines 238-245) and
the process exits 0. -/
theorem c3_counterexample :
    runMain ⟨some "host", none, none, some none, true⟩
        ⟨some (some 0), some (some 0), some (some 23), none⟩ =
      ([Stage.transfer, Stage.remoteExec, Stage.copyArtifacts],
        Exit.code 0) ∧
    (runMain ⟨some "host", none, none, some none, true⟩
        ⟨some (some 0), some (some 0), some (some 23), none⟩).2 ≠
      Exit.code (-6) := by
  decide

/-- C3 (amended): in a run that reaches the copy-back phase,
CopyArtifacts is attempted exactly when `copy_back` is present, and
CopyLock is attempted exactly when the lock copy is not suppressed
(provided the artifact copy-back did not already abort); a copy-back
process that cannot be started terminates the run with that stage's own
distinct code (`-6` for artifacts, `-7` for the lockfile, distinct from
each other), independent of the remote build status; a copy-back process
that starts and exits non-zero is ignored. -/
theorem c3_copy_back_amended (o : Opts) (w : World) (st : Option Int)
    (hres : ∃ s, resolve_build_server o.remote [o.projectConfig, o.userConfig] =
      .ok (some s))
    (hTo : w.rsyncTo ≠ none) (hSsh : w.ssh = some st) :
    (Stage.copyArtifacts ∈ (runMain o w).1 ↔ o.copy_back.isSome) ∧
    ((o.copy_back.isSome → w.rsyncBack.isSome) →
      (Stage.copyLock ∈ (runMain o w).1 ↔ o.no_copy_lock = false)) ∧
    (o.copy_back.isSome → w.rsyncBack = none →
      (runMain o w).2 = Exit.code (-6)) ∧
    (o.no_copy_lock = false → (o.copy_back.isSome → w.rsyncBack.isSome) →
      w.rsyncLock = none → (runMain o w).2 = Exit.code (-7)) ∧
    Exit.code (-6) ≠ Exit.code (-7) := by
  obtain ⟨s, hs⟩ := hres
  obtain ⟨r, hr⟩ : ∃ r, w.rsyncTo = some r := by
    cases h : w.rsyncTo
    · exact absurd h hTo
    · exact ⟨_, rfl⟩
  refine ⟨?_, ?_, ?_, ?_, by decide⟩ <;>
    rcases hcb : o.copy_back with _ | sel <;>
      rcases hb : w.rsyncBack with _ | rb <;>
        rcases hnl : o.no_copy_lock with _ | _ <;>
          rcases hl : w.rsyncLock with _ | rl <;>
            simp [runMain, hs, hr, hSsh, copyArtifactsStage, copyLockStage,
              hcb, hb, hnl, hl]

/-- C3 witness: a concrete run whose artifact copy-back rsync cannot be
started exits with `-6` although the remote build failed with 7. -/
theorem c3_copy_back_amended_witness :
    (runMain ⟨some "h", none, none, some none, false⟩
      ⟨some (some 0), some (some 7), none, some (some 0)⟩).2 =
      Exit.code (-6) :=
  (c3_copy_back_amended ⟨some "h", none, none, some none, false⟩
    ⟨some (some 0), some (some 7), none, some (some 0)⟩ (some 7)
    ⟨"h", rfl⟩ (by decide) rfl).2.2.1 rfl rfl

/-- C8 counterexample: the identifier embedded in the remote build path is
not fixed-width: the decimal rendering of the 64-bit hash value 5 and of
the 64-bit hash value 12345678901234567890 (both representable results of
`hasher.finish()`) give path strings of different lengths, because
`format!` renders a `u64` as unpadded decimal. -/
theorem c8_counterexample :
    (build_path 5).length ≠ (build_path 12345678901234567890).length ∧
    5 < 2 ^ 64 ∧ 12345678901234567890 < 2 ^ 64 := by
  decide

/-- C8 (amended): the remote build path is a pure deterministic function
of the local project root alone — deriving it twice from the same path
with the program's one fixed hash function yields the identical string —
of the shape `~/remote-builds/<id>/` where `<id>` is the unpadded decimal
rendering (between 1 and 20 digits, so variable-width) of the 64-bit hash
of the path. -/
theorem c8_build_path_amended (f : String → Nat) (p : String)
    (hrange : f p < 2 ^ 64) :
    derive_build_path f p = derive_build_path f p ∧
    derive_build_path f p = "~/remote-builds/" ++ Nat.repr (f p) ++ "/" ∧
    1 ≤ (Nat.repr (f p)).length ∧ (Nat.repr (f p)).length ≤ 20 := by
  refine ⟨rfl, rfl, repr_length_pos _, Nat.repr_length _ 20 (by norm_num) ?_⟩
  calc f p < 2 ^ 64 := hrange
    _ < 10 ^ 20 := by norm_num

/-- C8 witness: the derivation evaluated with a concrete hash function at
a concrete project path. -/
theorem c8_build_path_amended_witness :
    derive_build_path String.length "/home/user/proj" =
      "~/remote-builds/15/" := by
  have h := c8_build_path_amended String.length "/home/user/proj" (by decide)
  exact h.2.1.trans (by decide)

/-- C9: for every combination of resolved options, the upload rsync
excludes the local `target` directory, excludes dot-prefixed entries
exactly when `transferHidden` is false, passes `--delete` (mirroring
deletions on the remote side) and passes `--compress` (compressed
transfer). -/
theorem c9_transfer_exclusions (hidden : Bool) (pd bs bp : String) :
    (∃ l r, rsyncToArgs hidden pd bs bp =
      l ++ ["--exclude", "target"] ++ r) ∧
    ((∃ l r, rsyncToArgs hidden pd bs bp =
      l ++ ["--exclude", ".*"] ++ r) ↔ hidden = false) ∧
    "--delete" ∈ rsyncToArgs hidden pd bs bp ∧
    "--compress" ∈ rsyncToArgs hidden pd bs bp := by
  cases hidden
  · refine ⟨⟨["-a", "--delete", "--compress", "--info=progress2"],
      ["--exclude", ".*", "--rsync-path", "mkdir -p remote-builds && rsync",
        pd ++ "/", bs ++ ":" ++ bp], rfl⟩, ?_, by simp [rsyncToArgs],
      by simp [rsyncToArgs]⟩
    constructor
    · intro _; rfl
    · intro _
      exact ⟨["-a", "--delete", "--compress", "--info=progress2",
        "--exclude", "target"],
        ["--rsync-path", "mkdir -p remote-builds && rsync",
          pd ++ "/", bs ++ ":" ++ bp], rfl⟩
  · refine ⟨⟨["-a", "--delete", "--compress", "--info=progress2"],
      ["--rsync-path", "mkdir -p remote-builds && rsync",
        pd ++ "/", bs ++ ":" ++ bp], rfl⟩, ?_, by simp [rsyncToArgs],
      by simp [rsyncToArgs]⟩
    constructor
    · rintro ⟨l, r, h⟩
      exfalso
      have hm : ".*" ∈ rsyncToArgs true pd bs bp := by rw [h]; simp
      simp [rsyncToArgs] at hm
      rcases hm with h1 | h1
      · exact append_slash_ne pd h1.symm
      · exact host_colon_ne bs bp h1.symm
    · intro h
      exact absurd h (by decide)

/-- C10: on every run that reaches the Transfer stage, the upload rsync
invocation itself carries the remote-side command
`mkdir -p remote-builds && rsync` via `--rsync-path`, so the parent
directory `remote-builds` is created as part of the transfer, not by a
separate stage. -/
theorem c10_mkdir_remote_builds (hidden : Bool) (pd bs bp : String) :
    ∃ l r, rsyncToArgs hidden pd bs bp =
      l ++ ["--rsync-path", "mkdir -p remote-builds && rsync"] ++ r := by
  cases hidden
  · exact ⟨["-a", "--delete", "--compress", "--info=progress2",
      "--exclude", "target", "--exclude", ".*"],
      [pd ++ "/", bs ++ ":" ++ bp], rfl⟩
  · exact ⟨["-a", "--delete", "--compress", "--info=progress2",
      "--exclude", "target"],
      [pd ++ "/", bs ++ ":" ++ bp], rfl⟩

end CargoRemote
